import Mathlib

/-!
# Verification of the quantum-pools routing core

Shallow embedding of the parts of the `quantum-pools` repository that the
claims concern, together with theorems settling each claim.

Conventions of the embedding:
* UUIDs are modelled as natural numbers (`str` on UUIDs is injective, so a
  stop sequence of `str(id)` strings is modelled as a list of the ids).
* Dates are modelled as integers (day counts); `timedelta(days = 6)` is `6`.
* Python floats are modelled as rationals, except inside the Haversine
  computation of `app/services/routing.py`, where trigonometry forces reals.
* Python `int(x)` (truncation toward zero) is `pyIntQ` / `pyIntR`.
* SQLAlchemy queries over a table are modelled as `List.filter` / `List.find?`
  over a list of rows in insertion order.
* The OR-Tools solver and the HTTP matrix backend are external systems: they
  enter the embedding as explicit parameters (a candidate tour for the TSP,
  an outcome value for the backend), and every code path around them is
  translated from the source.
-/

namespace QuantumPools

/-- Entity ids (UUIDs in the source). -/
abbrev EId := Nat

/-- Dates as integer day counts. -/
abbrev DateV := Int

/-- Day-of-week values: lowercase English names, as in the source. -/
abbrev Day := String

/-- `app/models/customer.py` — the fields the routing core reads. -/
structure Customer where
  id : EId
  organization_id : EId
  display_name : String := ""
  name : String := ""
  address : String := ""
  latitude : Option ℚ := none
  longitude : Option ℚ := none
  assigned_tech_id : Option EId := none
  visit_duration : Int := 15
  difficulty : Int := 1
  service_day : Day := "monday"
  service_days_per_week : Int := 1
  service_schedule : Option String := none
  locked : Bool := false
  status : String := "active"
  is_active : Bool := true
  deriving Repr, DecidableEq

/-- `Customer.base_service_duration` (`app/models/customer.py` lines 194-208):
`visit_duration + (difficulty - 1) * 5`. -/
def Customer.base_service_duration (c : Customer) : Int :=
  c.visit_duration + (c.difficulty - 1) * 5

/-- The service-duration formula as the spec words it (section 3):
`effective_service_min(customer) = visit_duration_min + 5 * max(0, difficulty - 1)`.
Stated from the spec for comparison with the source definitions. -/
def spec_effective_service_min (c : Customer) : Int :=
  c.visit_duration + 5 * max 0 (c.difficulty - 1)

/-- `app/models/tech.py` — the fields the routing core reads. -/
structure Tech where
  id : EId
  organization_id : EId
  name : String := ""
  color : String := ""
  start_latitude : ℚ := 0
  start_longitude : ℚ := 0
  end_latitude : ℚ := 0
  end_longitude : ℚ := 0
  is_active : Bool := true
  deriving Repr, DecidableEq

/-- `app/models/temp_assignment.py` — a `TempTechAssignment` row. The
database row id is auto-generated; creation sites in the model use `0`. -/
structure TempTechAssignment where
  id : EId := 0
  organization_id : EId
  customer_id : EId
  tech_id : EId
  service_day : Day
  assignment_date : DateV
  deriving Repr, DecidableEq

/-- `app/models/tech_route.py` — a `TechRoute` row.  `stop_sequence` stores
`str(customer.id)` strings, modelled as the ids themselves. -/
structure TechRouteRec where
  organization_id : EId
  tech_id : EId
  service_day : Day
  route_date : DateV
  stop_sequence : List EId
  total_distance : ℚ
  total_duration : Int
  deriving Repr, DecidableEq

/-- `app/models/route.py` — a `RouteStop` row (the editable save flow). -/
structure RouteStopRec where
  id : EId
  route_id : EId
  customer_id : EId
  sequence : Int
  deriving Repr, DecidableEq

/-- Python truthiness of an optional float (`if customer.latitude and ...`):
`None` and `0.0` are falsy. -/
def pyTruthy : Option ℚ → Bool
  | none => false
  | some x => x != 0

/-- A customer has usable coordinates in the sense of the source checks. -/
def hasCoords (c : Customer) : Bool :=
  pyTruthy c.latitude && pyTruthy c.longitude

/-- Python `int()` on a rational: truncation toward zero. -/
def pyIntQ (q : ℚ) : Int :=
  if 0 ≤ q then ⌊q⌋ else ⌈q⌉

/-- The `day_abbrev_map` dict appearing in `app/api/routes.py`. -/
def day_abbrev_map : Day → Option String
  | "monday" => some "Mo"
  | "tuesday" => some "Tu"
  | "wednesday" => some "We"
  | "thursday" => some "Th"
  | "friday" => some "Fr"
  | "saturday" => some "Sa"
  | "sunday" => some "Su"
  | _ => none

/-- Substring test on character lists (Python `pat in s`). -/
def listContains (l pat : List Char) : Bool :=
  match l with
  | [] => pat.isEmpty
  | _ :: t => pat.isPrefixOf l || listContains t pat

/-- Python `pat in s` / SQL `s LIKE '%pat%'` on strings. -/
def strContains (s pat : String) : Bool :=
  listContains s.toList pat.toList

/-- ASCII lowercase of one character (Python `str.lower` on the day names
appearing in the source). -/
def charLower (c : Char) : Char :=
  if 65 ≤ c.toNat ∧ c.toNat ≤ 90 then Char.ofNat (c.toNat + 32) else c

/-- Python `s.lower()`. -/
def strLower (s : String) : String :=
  ⟨s.toList.map charLower⟩

/-- Python `s.split(sep)` on character lists (splits on every occurrence,
keeps empty parts). -/
def splitOnChar (sep : Char) : List Char → List (List Char)
  | [] => [[]]
  | c :: t =>
    let r := splitOnChar sep t
    if c = sep then [] :: r
    else
      match r with
      | h :: t2 => (c :: h) :: t2
      | [] => [[c]]

/-- Python `s.strip()` (ASCII whitespace). -/
def stripChars (l : List Char) : List Char :=
  ((l.dropWhile fun c => c.isWhitespace).reverse.dropWhile
    fun c => c.isWhitespace).reverse

/-- The day-membership condition used by `create_temp_assignment`
(`app/api/routes.py` lines 361-368) and `get_tech_routes_for_day`
(lines 1033-1041): primary `service_day` equals the day, or the two-letter
abbreviation occurs in `service_schedule` (SQL `LIKE` on `NULL` is false). -/
def scheduledOn (c : Customer) (day : Day) : Bool :=
  c.service_day == strLower day ||
    (match day_abbrev_map (strLower day), c.service_schedule with
     | some ab, some sched => strContains sched ab
     | _, _ => false)

/-! ## Temp-assignment mutation (`create_temp_assignment`, `app/api/routes.py` 265-321) -/

/-- Step 1 (lines 270-277): delete the tenant's temp assignments with
`assignment_date < today - 6`. -/
def purgeExpired (org : EId) (today : DateV) (temps : List TempTechAssignment) :
    List TempTechAssignment :=
  temps.filter fun ta =>
    decide ¬(ta.organization_id = org ∧ ta.assignment_date < today - 6)

/-- Step 2 (lines 279-289): the current temp row for
`(org, customer, service_day, today)`, if any. -/
def findCurrentTemp (org cid : EId) (day : Day) (today : DateV)
    (temps : List TempTechAssignment) : Option TempTechAssignment :=
  temps.find? fun ta =>
    ta.organization_id == org && ta.customer_id == cid &&
      ta.service_day == day && ta.assignment_date == today

/-- Step 3 (lines 301-308): delete the temp rows for `(org, customer,
service_day)`.  The source query has no `assignment_date` condition. -/
def deleteCurrentTemp (org cid : EId) (day : Day)
    (temps : List TempTechAssignment) : List TempTechAssignment :=
  temps.filter fun ta =>
    decide ¬(ta.organization_id = org ∧ ta.customer_id = cid ∧ ta.service_day = day)

/-- Steps 1-5 of `create_temp_assignment` on the temp table (lines 270-321):
purge, read the previous tech, delete the current temp, insert a new temp
unless `new_tech_id == customer.assigned_tech_id`.  Returns the new table,
the Python local `temp_assignment` (unbound, i.e. `none`, when no insert
happened), and `old_tech_id`. -/
def temp_mutation (org cid newTech : EId) (day : Day) (today : DateV)
    (assigned : Option EId) (temps : List TempTechAssignment) :
    List TempTechAssignment × Option TempTechAssignment × Option EId :=
  let temps1 := purgeExpired org today temps
  let oldTemp := findCurrentTemp org cid day today temps1
  let oldTechId := match oldTemp with
    | some ta => some ta.tech_id
    | none => assigned
  let temps2 := deleteCurrentTemp org cid day temps1
  if some newTech ≠ assigned then
    let ta : TempTechAssignment :=
      { organization_id := org, customer_id := cid, tech_id := newTech,
        service_day := day, assignment_date := today }
    (temps2 ++ [ta], some ta, oldTechId)
  else
    (temps2, none, oldTechId)

/-- The permanent component of the spec's effective-assignment rule
(section 3): the tenant's customer record's `assigned_tech_id`. -/
def spec_permanent_assignment (customers : List Customer) (org cid : EId) :
    Option EId :=
  (customers.find? fun c => c.id == cid && c.organization_id == org).bind
    (·.assigned_tech_id)

/-- Effective assignment, following the words of the spec (section 3):
for `(tenant, customer, day, date)` take the tech of a non-expired
`TempAssignment` for that key if one exists, else the customer's permanent
`assigned_tech_id`.  A temp is expired when `assignment_date < today - 6`. -/
def spec_effective_assignment (temps : List TempTechAssignment)
    (customers : List Customer) (org cid : EId) (day : Day) (d today : DateV) :
    Option EId :=
  if d < today - 6 then spec_permanent_assignment customers org cid
  else
    match temps.find? (fun ta =>
        ta.organization_id == org && ta.customer_id == cid &&
          ta.service_day == day && ta.assignment_date == d) with
    | some ta => some ta.tech_id
    | none => spec_permanent_assignment customers org cid

/-! ## Single-tech TSP (`app/services/tech_routing.py`) -/

/-- Matrix entry lookup with Python-list indexing; out-of-range reads are
never exercised by the source loops. -/
def idxQ (m : List (List ℚ)) (i j : Nat) : ℚ :=
  (((m.get? i).getD []).get? j).getD 0

/-- Integer-matrix entry lookup. -/
def idxZ (m : List (List Int)) (i j : Nat) : Int :=
  (((m.get? i).getD []).get? j).getD 0

/-- The `customer_map` of `generate_route_for_tech` (lines 71-80): location
index `k` (for `1 ≤ k ≤ len(valid)`) maps to the `k`-th customer that has
coordinates. -/
def customerMap (valid : List Customer) (k : Nat) : Option Customer :=
  if 1 ≤ k then valid.get? (k - 1) else none

/-- The solution-extraction loop of `_solve_tsp` (lines 200-222).  `tour` is
the node sequence from the start depot to the end depot as the solver visits
it.  Returns `(stop_sequence, total_distance_m, total_duration)`; the stop
at a node is recorded (with its service time) only when the node is neither
depot and is in `customer_map`, and the arc into the end depot is not
accumulated (the source guards with `if not routing.IsEnd(next_index)`). -/
def tourWalk (distM : List (List ℚ)) (timeM : List (List Int))
    (cmap : Nat → Option Customer) (n : Nat) :
    List Nat → List EId × ℚ × Int
  | [] => ([], 0, 0)
  | [_] => ([], 0, 0)
  | x :: y :: rest =>
    let r := tourWalk distM timeM cmap n (y :: rest)
    let stop : List EId × Int :=
      if x ≠ 0 ∧ x ≠ n - 1 then
        match cmap x with
        | some c => ([c.id], c.visit_duration)
        | none => ([], 0)
      else ([], 0)
    let arc : ℚ × Int :=
      if rest.isEmpty then (0, 0) else (idxQ distM x y, idxZ timeM x y)
    (stop.1 ++ r.1, arc.1 + r.2.1, stop.2 + arc.2 + r.2.2)

/-- Result of `_solve_tsp` (lines 227-231): distance converted from meters
to miles by `/ 1609.34`. -/
structure TspResult where
  stop_sequence : List EId
  total_distance : ℚ
  total_duration : Int
  deriving Repr, DecidableEq

/-- `_solve_tsp` (lines 127-231) with the OR-Tools search abstracted into
the `tour` parameter (`none` models solver failure). -/
def solve_tsp (distM : List (List ℚ)) (timeM : List (List Int))
    (cmap : Nat → Option Customer) (n : Nat) (tour : Option (List Nat)) :
    Option TspResult :=
  tour.map fun tr =>
    let w := tourWalk distM timeM cmap n tr
    { stop_sequence := w.1, total_distance := w.2.1 / (160934 / 100),
      total_duration := w.2.2 }

/-- `generate_route_for_tech` (`app/services/tech_routing.py` lines 24-125).
`getMatrix` stands for `routing_service.get_distance_matrix`, `tour` for the
OR-Tools search outcome.  Branches translated from the source: empty
customer list; the one-customer shortcut (lines 59-69), which uses the raw
`visit_duration` and skips the coordinate filter; the coordinate filter
(lines 75-80, a log-only skip); the no-solution fallback (lines 96-107),
which returns all customers in original order. -/
def generate_route_for_tech
    (getMatrix : List (ℚ × ℚ) → List (List ℚ) × List (List Int))
    (tour : Option (List Nat)) (tech : Tech) (customers : List Customer)
    (service_day : Day) (route_date : DateV) (organization_id : EId) :
    TechRouteRec :=
  match customers with
  | [] =>
    { organization_id := organization_id, tech_id := tech.id,
      service_day := service_day, route_date := route_date,
      stop_sequence := [], total_distance := 0, total_duration := 0 }
  | [c] =>
    { organization_id := organization_id, tech_id := tech.id,
      service_day := service_day, route_date := route_date,
      stop_sequence := [c.id], total_distance := 0,
      total_duration := c.visit_duration }
  | _ =>
    let valid := customers.filter hasCoords
    let locations : List (ℚ × ℚ) :=
      (tech.start_latitude, tech.start_longitude) ::
        (valid.map fun c => (c.latitude.getD 0, c.longitude.getD 0)) ++
          [(tech.end_latitude, tech.end_longitude)]
    let m := getMatrix locations
    match solve_tsp m.1 m.2 (customerMap valid) locations.length tour with
    | none =>
      { organization_id := organization_id, tech_id := tech.id,
        service_day := service_day, route_date := route_date,
        stop_sequence := customers.map (·.id), total_distance := 0,
        total_duration := (customers.map (·.visit_duration)).sum }
    | some r =>
      { organization_id := organization_id, tech_id := tech.id,
        service_day := service_day, route_date := route_date,
        stop_sequence := r.stop_sequence, total_distance := r.total_distance,
        total_duration := r.total_duration }

/-! ## The `create_temp_assignment` endpoint (`app/api/routes.py` 254-420) -/

/-- The database tables the routing core touches, rows in insertion order. -/
structure Db where
  customers : List Customer := []
  techs : List Tech := []
  temps : List TempTechAssignment := []
  tech_routes : List TechRouteRec := []
  deriving Repr, DecidableEq

/-- Runtime failures of the endpoint observable to the caller. -/
inductive PyFailure
  /-- `scalar_one()` found no row. -/
  | noResultFound
  /-- the response references the local `temp_assignment` that was never
  bound (`UnboundLocalError`). -/
  | unboundLocal
  /-- a call passed a keyword argument the callee's signature does not
  accept (`TypeError: unexpected keyword argument`). -/
  | typeError
  deriving Repr, DecidableEq

/-- One entry of the `updated_routes` list (lines 407-414).  In the source
these entries are built only after a successful
`generate_route_for_tech` call, which the endpoint never completes (see
`regen_loop`), so the list stays empty on every reachable path. -/
structure UpdatedRoute where
  tech_id : EId
  tech_name : String
  tech_color : String
  stop_sequence : List EId
  total_distance : ℚ
  total_duration : Int
  deriving Repr, DecidableEq

/-- The endpoint response (lines 416-420). -/
structure TempAssignmentResponse where
  temp_id : EId
  updated_routes : List UpdatedRoute
  deriving Repr, DecidableEq

/-- Lines 323-328: `affected = {old, new} \\ {None}`.  The source iterates a
Python set; the per-tech computations are independent, so the embedding
fixes the order old-then-new. -/
def affectedTechs (oldTechId : Option EId) (newTech : EId) : List EId :=
  match oldTechId with
  | some o => if o == newTech then [newTech] else [o, newTech]
  | none => [newTech]

/-- The dict comprehension `{ta.customer_id: ta.tech_id for ta in ...}`
(line 379): on duplicate keys the last row wins.  This read-only lookup
runs inside the regeneration loop before the failing
`generate_route_for_tech` call (see `regen_loop`), so it never influences
an observable outcome of the endpoint. -/
def dictLastTemp (temps : List TempTechAssignment) (cid : EId) : Option EId :=
  ((temps.filter fun ta => ta.customer_id == cid).getLast?).map (·.tech_id)

/-- Lines 292-295: the endpoint's customer load —
`select(Customer).where(Customer.id == customer_id)`, with no
organization filter. -/
def load_customer_unscoped (customers : List Customer) (cid : EId) :
    Option Customer :=
  customers.find? fun c => c.id == cid

/-- Lines 346-348: the endpoint's tech load —
`select(Tech).where(Tech.id == tech_id)`, with no organization filter. -/
def load_tech_unscoped (techs : List Tech) (tid : EId) : Option Tech :=
  techs.find? fun t => t.id == tid

/-- A tenant-scoped entity read as the spec words it (sections 5 and 7):
every query filters by the tenant id. -/
def spec_load_customer_scoped (customers : List Customer) (org cid : EId) :
    Option Customer :=
  customers.find? fun c => c.id == cid && c.organization_id == org

/-- A tenant-scoped tech read as the spec words it (sections 5 and 7). -/
def spec_load_tech_scoped (techs : List Tech) (org tid : EId) : Option Tech :=
  techs.find? fun t => t.id == tid && t.organization_id == org

/-- The per-tech regeneration loop of `create_temp_assignment`
(lines 344-414).  An iteration whose tech does not resolve is skipped
(lines 349-351).  The first iteration whose tech *does* resolve runs the
read-only customer and temp queries (lines 353-389) and then invokes
`tech_routing_service.generate_route_for_tech(..., db_session=db)`
(lines 392-399) — but the service signature
(`app/services/tech_routing.py` lines 24-31) has no `db_session`
parameter, so the call raises `TypeError` before the service body runs:
no route is generated, added or committed, and the endpoint aborts. -/
def regen_loop (techs : List Tech) : List EId →
    Except PyFailure (List UpdatedRoute)
  | [] => Except.ok []
  | tid :: rest =>
    match load_tech_unscoped techs tid with
    | none => regen_loop techs rest
    | some _ => Except.error .typeError

/-- The `create_temp_assignment` endpoint (`app/api/routes.py` 254-420).
Returns the response (or the runtime failure) together with the committed
database state: the temp-table mutation and the `TechRoute` deletions are
committed (lines 321 and 339) before the regeneration loop, so they
survive the loop's `TypeError` (see `regen_loop`) as well as the
`UnboundLocalError` at line 418, which is reached when no affected tech
resolves and no temp row was inserted
(`new_tech_id == customer.assigned_tech_id`). -/
def create_temp_assignment (db : Db) (authOrg cid newTech : EId)
    (day : Day) (today : DateV) :
    Except PyFailure TempAssignmentResponse × Db :=
  match load_customer_unscoped db.customers cid with
  | none => (Except.error .noResultFound, db)
  | some customer =>
    let mres := temp_mutation authOrg cid newTech day today
      customer.assigned_tech_id db.temps
    let temps3 := mres.1
    let tempVar := mres.2.1
    let oldTechId := mres.2.2
    let affected := affectedTechs oldTechId newTech
    let routes1 := db.tech_routes.filter fun r =>
      decide ¬(r.organization_id = authOrg ∧ r.tech_id ∈ affected ∧
        r.service_day = day ∧ r.route_date = today)
    let dbOut : Db := { db with temps := temps3, tech_routes := routes1 }
    match regen_loop db.techs affected with
    | Except.error e => (Except.error e, dbOut)
    | Except.ok updated =>
      match tempVar with
      | none => (Except.error .unboundLocal, dbOut)
      | some ta =>
        (Except.ok { temp_id := ta.id, updated_routes := updated }, dbOut)

/-! ## Stop reordering (`update_route_stops`, `app/api/routes.py` 799-860) -/

/-- One iteration of the update loop (lines 835-846): set the sequence of
the stop with the submitted id, wherever it lives. -/
def stepStopUpdate (stops : List RouteStopRec) (upd : EId × Int) :
    List RouteStopRec :=
  stops.map fun s => if s.id = upd.1 then { s with sequence := upd.2 } else s

/-- The stop-sequence mutation performed by `update_route_stops`: apply the
submitted `(stop_id, sequence)` pairs in order.  No resequencing follows. -/
def update_route_stops (stops : List RouteStopRec) (upds : List (EId × Int)) :
    List RouteStopRec :=
  upds.foldl stepStopUpdate stops

/-- The sequence values of a route's stops, in table order. -/
def routeSequences (stops : List RouteStopRec) (rid : EId) : List Int :=
  (stops.filter fun s => s.route_id == rid).map (·.sequence)

/-- Dense `1..N` permutation, as the spec words it: the multiset of sequence
values of the route's `N` stops contains every value `1..N`. -/
def spec_dense_permutation (l : List Int) : Bool :=
  (List.range l.length).all fun k => l.contains ((k : Int) + 1)

/-! ## Day-route reads (`get_tech_routes_for_day`, `app/api/routes.py` 963-1135) -/

/-- One entry of a returned route's `stops` list (lines 1105-1111). -/
structure StopOut where
  customer_id : EId
  customer_name : String
  address : String
  latitude : Option ℚ
  longitude : Option ℚ
  deriving Repr, DecidableEq

/-- Lines 1101-1103: short address = first two comma-separated parts,
re-joined and stripped; the full address when it has fewer parts. -/
def short_address (addr : String) : String :=
  let parts := splitOnChar ',' addr.toList
  if 2 ≤ parts.length then
    ⟨stripChars (List.intercalate [',', ' '] (parts.take 2))⟩
  else addr

/-- Lines 1085-1091: the lookup table is built from the tenant's active
customers only. -/
def customers_by_id (customers : List Customer) (org : EId) : List Customer :=
  customers.filter fun c => c.organization_id == org && c.is_active

/-- Python dict lookup `{str(c.id): c}` built from a row list: the last row
with the id wins. -/
def dictLastCustomer (l : List Customer) (cid : EId) : Option Customer :=
  (l.filter fun c => c.id == cid).getLast?

/-- Lines 1096-1111: expand a stored `stop_sequence` into detail records;
ids that do not resolve in the lookup table are silently dropped
(`if customer:`). -/
def build_stops (col : List Customer) (seq : List EId) : List StopOut :=
  seq.filterMap fun cid =>
    (dictLastCustomer col cid).map fun c =>
      { customer_id := cid,
        customer_name := if c.display_name != "" then c.display_name else c.name,
        address := short_address c.address,
        latitude := c.latitude, longitude := c.longitude }

/-- One route of the response (lines 1113-1133); tech metadata comes from
the joined tech row. -/
structure DayRouteOut where
  tech_id : EId
  driver_name : String
  driver_color : String
  service_day : Day
  stop_sequence : List EId
  stops : List StopOut
  total_distance : ℚ
  total_duration : Int
  deriving Repr, DecidableEq

/-- Build the response entry for one persisted `TechRoute`. -/
def build_day_route (col : List Customer) (tech : Tech) (tr : TechRouteRec) :
    DayRouteOut :=
  { tech_id := tr.tech_id, driver_name := tech.name,
    driver_color := tech.color, service_day := tr.service_day,
    stop_sequence := tr.stop_sequence,
    stops := build_stops col tr.stop_sequence,
    total_distance := tr.total_distance, total_duration := tr.total_duration }

/-! ## Matrix provider (`app/services/routing.py`) -/

/-- Python `int()` on a real: truncation toward zero. -/
noncomputable def pyIntR (x : ℝ) : Int :=
  if 0 ≤ x then ⌊x⌋ else ⌈x⌉

/-- `math.radians`. -/
noncomputable def radians (x : ℝ) : ℝ :=
  x * Real.pi / 180

/-- `math.atan2`. -/
noncomputable def pyAtan2 (y x : ℝ) : ℝ :=
  if 0 < x then Real.arctan (y / x)
  else if x < 0 then
    (if 0 ≤ y then Real.arctan (y / x) + Real.pi
     else Real.arctan (y / x) - Real.pi)
  else
    (if 0 < y then Real.pi / 2 else if y < 0 then -(Real.pi / 2) else 0)

/-- The intermediate `a` of the Haversine formula (lines 61-63). -/
noncomputable def haversine_a (lat1 lon1 lat2 lon2 : ℝ) : ℝ :=
  Real.sin (radians (lat2 - lat1) / 2) ^ 2 +
    Real.cos (radians lat1) * Real.cos (radians lat2) *
      Real.sin (radians (lon2 - lon1) / 2) ^ 2

/-- `RoutingProvider._haversine_distance` (lines 36-66): great-circle
distance in miles, Earth radius 3959. -/
noncomputable def haversine_distance (lat1 lon1 lat2 lon2 : ℝ) : ℝ :=
  3959 * (2 * pyAtan2 (Real.sqrt (haversine_a lat1 lon1 lat2 lon2))
    (Real.sqrt (1 - haversine_a lat1 lon1 lat2 lon2)))

/-- One distance entry of `_create_fallback_matrices` (lines 88-96):
`0` on the diagonal, else `int(miles * 1609.34)` meters. -/
noncomputable def fallbackDistEntry (locations : List (ℚ × ℚ)) (i j : Nat) :
    Int :=
  if i = j then 0
  else
    pyIntR (haversine_distance ((locations.getD i (0, 0)).1 : ℝ)
      ((locations.getD i (0, 0)).2 : ℝ) ((locations.getD j (0, 0)).1 : ℝ)
      ((locations.getD j (0, 0)).2 : ℝ) * (160934 / 100))

/-- One time entry of `_create_fallback_matrices` (lines 98-100):
`0` on the diagonal, else `int(miles / 30.0 * 60)` minutes. -/
noncomputable def fallbackTimeEntry (locations : List (ℚ × ℚ)) (i j : Nat) :
    Int :=
  if i = j then 0
  else
    pyIntR (haversine_distance ((locations.getD i (0, 0)).1 : ℝ)
      ((locations.getD i (0, 0)).2 : ℝ) ((locations.getD j (0, 0)).1 : ℝ)
      ((locations.getD j (0, 0)).2 : ℝ) / 30 * 60)

/-- `RoutingProvider._create_fallback_matrices` (lines 68-102). -/
noncomputable def create_fallback_matrices (locations : List (ℚ × ℚ)) :
    List (List ℚ) × List (List Int) :=
  ((List.range locations.length).map fun i =>
      (List.range locations.length).map fun j =>
        ((fallbackDistEntry locations i j : Int) : ℚ),
   (List.range locations.length).map fun i =>
      (List.range locations.length).map fun j =>
        fallbackTimeEntry locations i j)

/-- What the outside world does to one OSRM table request: an HTTP reply
(status, payload `code` field, payload matrices), a timeout, or any other
raised error (all caught by `except Exception`). -/
inductive BackendOutcome
  | reply (status : Nat) (code : String) (distances : List (List ℚ))
      (durations : List (List ℚ))
  | timeout
  | connectionError
  deriving Repr, DecidableEq

/-- The failure modes of the backend reply handled at lines 149-157 and
172-177. -/
def backendFails : BackendOutcome → Bool
  | .reply status code _ _ => status != 200 || code != "Ok"
  | .timeout => true
  | .connectionError => true

/-- `OSRMProvider.get_distance_matrix` (lines 118-177): more than 100
locations or any backend failure falls back to the Haversine matrices; on
success the payload distances are returned as-is and the durations are
converted seconds→minutes by `int(d / 60)`. -/
noncomputable def osrm_get_distance_matrix (locations : List (ℚ × ℚ))
    (outcome : BackendOutcome) : List (List ℚ) × List (List Int) :=
  if 100 < locations.length then create_fallback_matrices locations
  else
    match outcome with
    | .reply status code dists durs =>
      if status ≠ 200 then create_fallback_matrices locations
      else if code ≠ "Ok" then create_fallback_matrices locations
      else (dists, durs.map (·.map fun d => pyIntQ (d / 60)))
    | .timeout => create_fallback_matrices locations
    | .connectionError => create_fallback_matrices locations

/-- The seconds→minutes conversion as the spec words it: rounding down but
floored to `1` for any non-self pair.  Stated from the spec for comparison
with the source conversion. -/
def spec_minutes_entry (d : ℚ) (isSelf : Bool) : Int :=
  if isSelf then pyIntQ (d / 60) else max 1 (pyIntQ (d / 60))

/-! ## Cross-day balancing (`app/services/optimization.py` 370-512) -/

/-- The day list of `_optimize_with_day_reassignment` (line 370). -/
def week_days : List Day :=
  ["monday", "tuesday", "wednesday", "thursday", "friday", "saturday"]

/-- The workload adjustment inside `_calculate_workload_variance`
(lines 498-506): decrement the old days, increment the new days.  The
source indexes the dict directly (a day outside the key set would raise
`KeyError`); the embedding covers the executions where `old` and `new`
are drawn from the workload keys, as in `_optimize_with_day_reassignment`. -/
def wl_adjust (w : List (Day × Int)) (old new : List Day) :
    List (Day × Int) :=
  w.map fun p => (p.1, p.2 - (old.count p.1 : Int) + (new.count p.1 : Int))

/-- Population variance of a list of counts (lines 508-512). -/
def variance_of (vals : List Int) : ℚ :=
  let mean : ℚ := (vals.sum : ℚ) / vals.length
  ((vals.map fun x => ((x : ℚ) - mean) ^ 2).sum) / vals.length

/-- `_calculate_workload_variance` (lines 490-512). -/
def calculate_workload_variance (w : List (Day × Int)) (old new : List Day) :
    ℚ :=
  variance_of ((wl_adjust w old new).map (·.2))

/-- `itertools.combinations` in its emission order. -/
def combinations {α : Type} : List α → Nat → List (List α)
  | _, 0 => [[]]
  | [], _ + 1 => []
  | x :: xs, k + 1 =>
    (combinations xs k).map (x :: ·) ++ combinations xs (k + 1)

/-- The multi-day branch of `_optimize_with_day_reassignment`
(lines 431-461): the running minimum starts at the variance with the
customer removed from all of its current days and nothing added
(`_calculate_workload_variance(day_workloads, current_days, [])`), and each
enumerated combination replaces the best only when strictly below the
running minimum. -/
def choose_best_days (days : List Day) (w : List (Day × Int))
    (current : List Day) (freq : Nat) : List Day :=
  let base := calculate_workload_variance w current []
  ((combinations days freq).foldl
    (fun p nd =>
      if calculate_workload_variance w current nd < p.2 then
        (nd, calculate_workload_variance w current nd)
      else p)
    (current, base)).1

/-! ## Day-solve coordinate filter (`_optimize_single_day`, `app/services/optimization.py` 996-1003) -/

/-- Line 997: `valid_customers = [c for c in customers if c.latitude and
c.longitude]`. -/
def valid_customers (customers : List Customer) : List Customer :=
  customers.filter fun c => hasCoords c

/-! ## Concrete fixtures -/

/-- A trivial matrix provider stub for exercising code paths that never
reach the matrices. -/
def gmZero : List (ℚ × ℚ) → List (List ℚ) × List (List Int) :=
  fun _ => ([], [])

/-- A customer of tenant 2 (permanently assigned to tech 20). -/
def customerOrgB : Customer :=
  { id := 10, organization_id := 2, assigned_tech_id := some 20 }

/-- A tech of tenant 2. -/
def techOrgB : Tech :=
  { id := 20, organization_id := 2, name := "bob" }

/-- A database holding only tenant-2 entities. -/
def dbTwoTenants : Db :=
  { customers := [customerOrgB], techs := [techOrgB] }

/-- A tenant-1 customer permanently assigned to tenant-1 tech 30. -/
def customerSameTech : Customer :=
  { id := 11, organization_id := 1, assigned_tech_id := some 30,
    service_day := "monday", latitude := some 37,
    longitude := some (-121) }

/-- The tenant-1 tech. -/
def techSameTech : Tech :=
  { id := 30, organization_id := 1, name := "alice" }

/-- Database for the same-tech temp-assignment scenario. -/
def dbSameTech : Db :=
  { customers := [customerSameTech], techs := [techSameTech] }

/-! ## C1 — tenant isolation of `set_temp_assignment` -/

/-- **C1** (code bug).  The claim states that `set_temp_assignment` loads
the referenced customer and each affected tech only from the calling
tenant's entity set.  The source loads both with no organization filter
(`app/api/routes.py` 292-295 and 346-348).  Concretely: tenant 1 invokes
the endpoint with the id of tenant 2's customer 10 (permanently assigned
to tenant 2's tech 20); the unscoped loads resolve the foreign customer
and the foreign tech (organization 2) while the tenant-scoped queries the
spec demands resolve nothing; no authorization failure is raised, and a
temp-assignment row under tenant 1 referencing tenant 2's customer is
committed at line 321 — before the regeneration loop aborts with the
(separate) `TypeError` of the `db_session=` keyword, which it reaches
precisely because the unscoped tech load resolved the foreign tech. -/
theorem C1_cross_tenant_read :
    (load_customer_unscoped dbTwoTenants.customers 10).map
        (·.organization_id) = some 2
    ∧ spec_load_customer_scoped dbTwoTenants.customers 1 10 = none
    ∧ (load_tech_unscoped dbTwoTenants.techs 20).map (·.organization_id) =
        some 2
    ∧ spec_load_tech_scoped dbTwoTenants.techs 1 20 = none
    ∧ (create_temp_assignment dbTwoTenants 1 10 21 "monday" 5).2.temps =
        [{ organization_id := 1, customer_id := 10, tech_id := 21,
           service_day := "monday", assignment_date := 5 }]
    ∧ (create_temp_assignment dbTwoTenants 1 10 21 "monday" 5).1 =
        Except.error PyFailure.typeError := by
  exact ⟨rfl, rfl, rfl, rfl, rfl, rfl⟩

/-! ## C3 — same-tech temp assignment -/

/-- Database for the same-tech scenario with no tech rows at all: the
regeneration loop then skips every affected tech and the endpoint reaches
the response construction at line 418. -/
def dbSameTechNoTech : Db :=
  { customers := [customerSameTech] }

/-- **C3** (code bug).  The claim states that a `set_temp_assignment` call
with `new_tech` equal to the customer's permanent `assigned_tech_id`
completes successfully: no temp row inserted, the affected routes
regenerated and returned.  No temp row is indeed inserted (line 311), but
the call never completes successfully: customer 11 is permanently assigned
to tech 30 and the call passes `new_tech = 30`; tech 30 resolves, so the
regeneration loop raises `TypeError` at line 392 (`db_session=` keyword
not in the service signature) — the affected `TechRoute` rows were already
deleted and committed (line 339) and no route is regenerated.  And even
when no affected tech resolves (second scenario), the response
construction reads `temp_assignment.id` (line 418), a local bound only
inside the skipped insert branch — an `UnboundLocalError`.  Either way no
regenerated routes are returned. -/
theorem C3_same_tech_call_fails :
    customerSameTech.assigned_tech_id = some 30
    ∧ (create_temp_assignment dbSameTech 1 11 30 "monday" 5).1 =
        Except.error PyFailure.typeError
    ∧ (create_temp_assignment dbSameTech 1 11 30 "monday" 5).2.temps = []
    ∧ (create_temp_assignment dbSameTech 1 11 30 "monday" 5).2.tech_routes =
        []
    ∧ (create_temp_assignment dbSameTechNoTech 1 11 30 "monday" 5).1 =
        Except.error PyFailure.unboundLocal := by
  exact ⟨rfl, rfl, rfl, rfl, rfl⟩

/-! ## List lemmas shared by the frame proofs -/

/-- `find?` over a filter is unchanged when every `p`-match is kept. -/
theorem find?_filter_eq {α : Type} (p q : α → Bool) (l : List α)
    (h : ∀ x, p x = true → q x = true) :
    (l.filter q).find? p = l.find? p := by
  induction l with
  | nil => rfl
  | cons a t ih =>
    cases hq : q a with
    | true =>
      cases hp : p a with
      | true =>
        rw [List.filter_cons, if_pos hq, List.find?_cons_of_pos _ hp,
          List.find?_cons_of_pos _ hp]
      | false =>
        rw [List.filter_cons, if_pos hq,
          List.find?_cons_of_neg _ (by simp [hp]),
          List.find?_cons_of_neg _ (by simp [hp]), ih]
    | false =>
      have hp : p a = false := by
        cases hpa : p a with
        | true => rw [h a hpa] at hq; cases hq
        | false => rfl
      rw [List.filter_cons, if_neg (by simp [hq]),
        List.find?_cons_of_neg _ (by simp [hp]), ih]

/-- `find?` over a filter is `none` when every `p`-match is dropped. -/
theorem find?_filter_none {α : Type} (p q : α → Bool) (l : List α)
    (h : ∀ x, p x = true → q x = false) :
    (l.filter q).find? p = none := by
  rw [List.find?_eq_none]
  intro x hx
  rcases List.mem_filter.mp hx with ⟨_, hqx⟩
  cases hpx : p x with
  | true => rw [h x hpx] at hqx; cases hqx
  | false => simp [hpx]

/-- Appending one element that does not match leaves `find?` unchanged. -/
theorem find?_append_nomatch {α : Type} (p : α → Bool) (l : List α) (a : α)
    (h : p a = false) : (l ++ [a]).find? p = l.find? p := by
  rw [List.find?_append]
  simp [List.find?, h]

/-- Conjoining a condition the found element satisfies preserves `find?`. -/
theorem find?_and_eq {α : Type} (p q : α → Bool) (l : List α) (c : α)
    (h : l.find? p = some c) (hq : q c = true) :
    (l.find? fun x => p x && q x) = some c := by
  induction l with
  | nil => cases h
  | cons a t ih =>
    cases hp : p a with
    | true =>
      rw [List.find?_cons_of_pos _ hp] at h
      injection h with h
      subst h
      rw [List.find?_cons_of_pos _ (by rw [hp, hq]; rfl)]
    | false =>
      rw [List.find?_cons_of_neg _ (by simp [hp])] at h
      rw [List.find?_cons_of_neg _ (by simp [hp])]
      exact ih h

/-! ## C2 — frame property of `set_temp_assignment` -/

/-- Unfolded form of the temp table after `temp_mutation`. -/
theorem temp_mutation_fst (org cid newTech : EId) (day : Day) (today : DateV)
    (assigned : Option EId) (temps : List TempTechAssignment) :
    (temp_mutation org cid newTech day today assigned temps).1 =
      deleteCurrentTemp org cid day (purgeExpired org today temps) ++
        (if some newTech ≠ assigned then
          [{ organization_id := org, customer_id := cid, tech_id := newTech,
             service_day := day, assignment_date := today }]
         else []) := by
  unfold temp_mutation
  split <;> simp

/-- The endpoint's committed temp table is the `temp_mutation` result, on
every outcome: the commit at line 321 precedes both failure points. -/
theorem create_temps_eq (db : Db) (authOrg cid newTech : EId)
    (day : Day) (today : DateV) (c : Customer)
    (hc : load_customer_unscoped db.customers cid = some c) :
    (create_temp_assignment db authOrg cid newTech day today).2.temps =
      (temp_mutation authOrg cid newTech day today c.assigned_tech_id
        db.temps).1 := by
  unfold create_temp_assignment
  rw [hc]
  cases hloop : regen_loop db.techs
      (affectedTechs (temp_mutation authOrg cid newTech day today
        c.assigned_tech_id db.temps).2.2 newTech) with
  | error e => simp [hloop]
  | ok upd =>
    cases hcase : (temp_mutation authOrg cid newTech day today
        c.assigned_tech_id db.temps).2.1 <;> simp [hloop, hcase]

/-- **C2** (amended).  After `set_temp_assignment(C, T, D)` on date `today`,
the effective assignment of `C` on day `D` for date `today` is `T`, and
every `(tenant, customer, day)` key other than `(tenant, C, D)` keeps its
effective assignment for every date.  But — unlike the claim — for the same
`(C, D)` key on every date other than `today` the effective assignment
becomes the customer's permanent tech: the delete at
`app/api/routes.py` 301-308 has no `assignment_date` condition, so it wipes
the temp rows of `(C, D)` for every date. -/
theorem C2_temp_assignment_frame (db : Db) (authOrg cid newTech : EId)
    (day : Day) (today : DateV) (c : Customer)
    (hc : load_customer_unscoped db.customers cid = some c)
    (horg : c.organization_id = authOrg) :
    spec_effective_assignment
        (create_temp_assignment db authOrg cid newTech day today).2.temps
        db.customers authOrg cid day today today = some newTech
    ∧ (∀ org2 cid2 day2 d2, ¬(org2 = authOrg ∧ cid2 = cid ∧ day2 = day) →
        spec_effective_assignment
            (create_temp_assignment db authOrg cid newTech day today).2.temps
            db.customers org2 cid2 day2 d2 today =
          spec_effective_assignment db.temps db.customers org2 cid2 day2 d2
            today)
    ∧ (∀ d2, d2 ≠ today →
        spec_effective_assignment
            (create_temp_assignment db authOrg cid newTech day today).2.temps
            db.customers authOrg cid day d2 today =
          spec_permanent_assignment db.customers authOrg cid) := by
  have hT := create_temps_eq db authOrg cid newTech day today c hc
  rw [temp_mutation_fst] at hT
  have hc2 : db.customers.find? (fun x => x.id == cid) = some c := hc
  have hfound : (db.customers.find? fun x =>
      x.id == cid && x.organization_id == authOrg) = some c :=
    find?_and_eq (fun x => x.id == cid) (fun x => x.organization_id == authOrg)
      db.customers c hc2 (by simp [beq_iff_eq, horg])
  have hpermEq : spec_permanent_assignment db.customers authOrg cid =
      c.assigned_tech_id := by
    unfold spec_permanent_assignment
    rw [hfound]
    rfl
  have hnoneDel : ∀ dq : DateV,
      ((deleteCurrentTemp authOrg cid day
        (purgeExpired authOrg today db.temps)).find? fun ta =>
          ta.organization_id == authOrg && ta.customer_id == cid &&
            ta.service_day == day && ta.assignment_date == dq) = none := by
    intro dq
    unfold deleteCurrentTemp
    apply find?_filter_none
    intro x hx
    simp only [Bool.and_eq_true, beq_iff_eq] at hx
    obtain ⟨⟨⟨h1, h2⟩, h3⟩, -⟩ := hx
    simp only [decide_eq_false_iff_not, not_not]
    exact ⟨h1, h2, h3⟩
  refine ⟨?_, ?_, ?_⟩
  · -- the new effective assignment of (cid, day) at date `today`
    rw [hT]
    simp only [spec_effective_assignment]
    have hlt : ¬((today : DateV) < today - 6) := by linarith
    rw [if_neg hlt]
    by_cases hins : some newTech ≠ c.assigned_tech_id
    · rw [if_pos hins, List.find?_append, hnoneDel today]
      simp [List.find?, Option.or]
    · rw [if_neg hins, List.append_nil, hnoneDel today, hpermEq]
      push_neg at hins
      exact hins.symm
  · -- every other (tenant, customer, day) key is untouched, for all dates
    intro org2 cid2 day2 d2 hne
    rw [hT]
    simp only [spec_effective_assignment]
    by_cases hd : d2 < today - 6
    · rw [if_pos hd, if_pos hd]
    · rw [if_neg hd, if_neg hd]
      have hta : ((fun ta : TempTechAssignment =>
          ta.organization_id == org2 && ta.customer_id == cid2 &&
            ta.service_day == day2 && ta.assignment_date == d2)
          ({ organization_id := authOrg, customer_id := cid,
             tech_id := newTech, service_day := day,
             assignment_date := today } : TempTechAssignment)) = false := by
        cases hb : ((fun ta : TempTechAssignment =>
            ta.organization_id == org2 && ta.customer_id == cid2 &&
              ta.service_day == day2 && ta.assignment_date == d2)
            ({ organization_id := authOrg, customer_id := cid,
               tech_id := newTech, service_day := day,
               assignment_date := today } : TempTechAssignment)) with
        | false => rfl
        | true =>
          exfalso
          simp only [Bool.and_eq_true, beq_iff_eq] at hb
          exact hne ⟨hb.1.1.1.symm, hb.1.1.2.symm, hb.1.2.symm⟩
      have hbase : ((deleteCurrentTemp authOrg cid day
          (purgeExpired authOrg today db.temps)).find? fun ta =>
            ta.organization_id == org2 && ta.customer_id == cid2 &&
              ta.service_day == day2 && ta.assignment_date == d2) =
          db.temps.find? fun ta =>
            ta.organization_id == org2 && ta.customer_id == cid2 &&
              ta.service_day == day2 && ta.assignment_date == d2 := by
        unfold deleteCurrentTemp purgeExpired
        rw [find?_filter_eq _ _ _ ?hkeepD, find?_filter_eq _ _ _ ?hkeepP]
        case hkeepD =>
          intro x hx
          simp only [Bool.and_eq_true, beq_iff_eq] at hx
          obtain ⟨⟨⟨h1, h2⟩, h3⟩, -⟩ := hx
          simp only [decide_eq_true_eq]
          rintro ⟨k1, k2, k3⟩
          exact hne ⟨h1.symm.trans k1, h2.symm.trans k2, h3.symm.trans k3⟩
        case hkeepP =>
          intro x hx
          simp only [Bool.and_eq_true, beq_iff_eq] at hx
          simp only [decide_eq_true_eq]
          rintro ⟨-, hlt⟩
          rw [hx.2] at hlt
          exact hd hlt
      have hfind : ((deleteCurrentTemp authOrg cid day
          (purgeExpired authOrg today db.temps) ++
            (if some newTech ≠ c.assigned_tech_id then
              [({ organization_id := authOrg, customer_id := cid,
                  tech_id := newTech, service_day := day,
                  assignment_date := today } : TempTechAssignment)]
             else [])).find? fun ta =>
            ta.organization_id == org2 && ta.customer_id == cid2 &&
              ta.service_day == day2 && ta.assignment_date == d2) =
          db.temps.find? fun ta =>
            ta.organization_id == org2 && ta.customer_id == cid2 &&
              ta.service_day == day2 && ta.assignment_date == d2 := by
        by_cases hins : some newTech ≠ c.assigned_tech_id
        · rw [if_pos hins,
            find?_append_nomatch (fun ta : TempTechAssignment =>
              ta.organization_id == org2 && ta.customer_id == cid2 &&
                ta.service_day == day2 && ta.assignment_date == d2) _ _ hta,
            hbase]
        · rw [if_neg hins, List.append_nil, hbase]
      rw [hfind]
  · -- for (cid, day) on any other date the temp is gone: permanent wins
    intro d2 hd2
    rw [hT]
    simp only [spec_effective_assignment]
    by_cases hd : d2 < today - 6
    · rw [if_pos hd]
    · rw [if_neg hd]
      have hta : ((fun ta : TempTechAssignment =>
          ta.organization_id == authOrg && ta.customer_id == cid &&
            ta.service_day == day && ta.assignment_date == d2)
          ({ organization_id := authOrg, customer_id := cid,
             tech_id := newTech, service_day := day,
             assignment_date := today } : TempTechAssignment)) = false := by
        cases hb : ((fun ta : TempTechAssignment =>
            ta.organization_id == authOrg && ta.customer_id == cid &&
              ta.service_day == day && ta.assignment_date == d2)
            ({ organization_id := authOrg, customer_id := cid,
               tech_id := newTech, service_day := day,
               assignment_date := today } : TempTechAssignment)) with
        | false => rfl
        | true =>
          exfalso
          simp only [Bool.and_eq_true, beq_iff_eq] at hb
          exact hd2 hb.2.symm
      have hnone : ((deleteCurrentTemp authOrg cid day
          (purgeExpired authOrg today db.temps) ++
            (if some newTech ≠ c.assigned_tech_id then
              [({ organization_id := authOrg, customer_id := cid,
                  tech_id := newTech, service_day := day,
                  assignment_date := today } : TempTechAssignment)]
             else [])).find? fun ta =>
            ta.organization_id == authOrg && ta.customer_id == cid &&
              ta.service_day == day && ta.assignment_date == d2) = none := by
        by_cases hins : some newTech ≠ c.assigned_tech_id
        · rw [if_pos hins,
            find?_append_nomatch (fun ta : TempTechAssignment =>
              ta.organization_id == authOrg && ta.customer_id == cid &&
                ta.service_day == day && ta.assignment_date == d2) _ _ hta,
            hnoneDel d2]
        · rw [if_neg hins, List.append_nil, hnoneDel d2]
      rw [hnone]

/-- A non-expired temp row from a previous date (yesterday) for the same
customer and day-of-week. -/
def tempYesterday : TempTechAssignment :=
  { organization_id := 1, customer_id := 11, tech_id := 7,
    service_day := "monday", assignment_date := 4 }

/-- Database where customer 11 has a live temp assignment dated yesterday. -/
def dbWithOldTemp : Db :=
  { customers := [customerSameTech], temps := [tempYesterday] }

/-- **C2** counterexample.  The claim states every effective assignment
other than `(C, D)` at date `today` is unchanged — in particular the same
`(C, D)` pair at any other assignment date.  Concretely: customer 11 has a
non-expired temp (tech 7) for monday dated day 4; on day 5 the endpoint
assigns tech 6 for monday.  Before the call the effective tech of
(11, monday) at date 4 is 7; after the call it is the permanent tech 30:
the claim is false at this input. -/
theorem C2_counterexample :
    spec_effective_assignment dbWithOldTemp.temps dbWithOldTemp.customers
      1 11 "monday" 4 5 = some 7
    ∧ spec_effective_assignment
        (create_temp_assignment dbWithOldTemp 1 11 6 "monday" 5).2.temps
        dbWithOldTemp.customers 1 11 "monday" 4 5 = some 30
    ∧ (7 : EId) ≠ 30 := by
  refine ⟨rfl, rfl, by decide⟩

/-- Witness for `C2_temp_assignment_frame` at a concrete input. -/
theorem C2_temp_assignment_frame_witness :
    (load_customer_unscoped dbSameTech.customers 11 = some customerSameTech
      ∧ customerSameTech.organization_id = 1)
    ∧ (spec_effective_assignment
          (create_temp_assignment dbSameTech 1 11 31 "monday" 5).2.temps
          dbSameTech.customers 1 11 "monday" 5 5 = some 31
      ∧ (∀ org2 cid2 day2 d2, ¬(org2 = 1 ∧ cid2 = 11 ∧ day2 = "monday") →
          spec_effective_assignment
              (create_temp_assignment dbSameTech 1 11 31 "monday" 5).2.temps
              dbSameTech.customers org2 cid2 day2 d2 5 =
            spec_effective_assignment dbSameTech.temps dbSameTech.customers
              org2 cid2 day2 d2 5)
      ∧ (∀ d2, d2 ≠ 5 →
          spec_effective_assignment
              (create_temp_assignment dbSameTech 1 11 31 "monday" 5).2.temps
              dbSameTech.customers 1 11 "monday" d2 5 =
            spec_permanent_assignment dbSameTech.customers 1 11)) :=
  ⟨⟨rfl, rfl⟩,
    C2_temp_assignment_frame dbSameTech 1 11 31 "monday" 5
      customerSameTech rfl rfl⟩

/-! ## C4 — one-customer shortcut -/

/-- A difficulty-3 customer: the difficulty adjustment would add 10 min. -/
def customerHard : Customer :=
  { id := 12, organization_id := 1, visit_duration := 20, difficulty := 3,
    latitude := some 37, longitude := some (-121) }

/-- **C4** counterexample.  The claim states the one-route shortcut's
`total_duration` equals `effective_service_min(c) = visit_duration +
5 * max(0, difficulty - 1)`.  The shortcut (`app/services/tech_routing.py`
59-69) uses the raw `visit_duration` instead: for a customer with
`visit_duration = 20` and `difficulty = 3` the route carries 20 minutes
while the spec formula (and the model's own `base_service_duration`)
gives 30. -/
theorem C4_counterexample :
    (generate_route_for_tech gmZero none techSameTech [customerHard]
        "monday" 5 1).total_duration = 20
    ∧ spec_effective_service_min customerHard = 30
    ∧ Customer.base_service_duration customerHard = 30
    ∧ (20 : Int) ≠ 30 := by
  refine ⟨rfl, by decide, by decide, by decide⟩

/-- **C4** (amended).  For a tech with exactly one customer `c` the
generated route is the shortcut route: `stop_sequence = [c]`, zero drive
distance and time, and `total_duration` equal to the raw
`visit_duration_min` — the difficulty adjustment of
`effective_service_min` is not applied (though the model's
`base_service_duration` agrees with the spec formula whenever
`difficulty ≥ 1`). -/
theorem C4_one_customer_shortcut
    (gm : List (ℚ × ℚ) → List (List ℚ) × List (List Int))
    (tour : Option (List Nat)) (tech : Tech) (c : Customer) (day : Day)
    (d : DateV) (org : EId) (hdiff : 1 ≤ c.difficulty) :
    generate_route_for_tech gm tour tech [c] day d org =
      { organization_id := org, tech_id := tech.id, service_day := day,
        route_date := d, stop_sequence := [c.id], total_distance := 0,
        total_duration := c.visit_duration }
    ∧ Customer.base_service_duration c = spec_effective_service_min c := by
  constructor
  · rfl
  · unfold Customer.base_service_duration spec_effective_service_min
    rw [max_eq_right (by linarith : (0 : Int) ≤ c.difficulty - 1)]
    ring

/-- Witness for `C4_one_customer_shortcut` at a concrete input. -/
theorem C4_one_customer_shortcut_witness :
    (1 : Int) ≤ customerHard.difficulty
    ∧ (generate_route_for_tech gmZero none techSameTech [customerHard]
          "monday" 5 1 =
        { organization_id := 1, tech_id := techSameTech.id,
          service_day := "monday", route_date := 5, stop_sequence := [12],
          total_distance := 0, total_duration := 20 }
      ∧ Customer.base_service_duration customerHard =
          spec_effective_service_min customerHard) :=
  ⟨by decide,
    C4_one_customer_shortcut gmZero none techSameTech customerHard
      "monday" 5 1 (by decide)⟩

/-! ## C5 — stop reorder does not resequence -/

/-- One per-stop update step (the body of the loop, specialised to one
stop): set the sequence when the id matches. -/
def stepOne (s : RouteStopRec) (u : EId × Int) : RouteStopRec :=
  if s.id = u.1 then { s with sequence := u.2 } else s

/-- The last submitted sequence value for a stop id, if any. -/
def lastSubmittedSeq (upds : List (EId × Int)) (sid : EId) : Option Int :=
  match upds with
  | [] => none
  | u :: us =>
    match lastSubmittedSeq us sid with
    | some v => some v
    | none => if u.1 = sid then some u.2 else none

/-- The update loop acts independently on each stop. -/
theorem update_route_stops_map (upds : List (EId × Int))
    (stops : List RouteStopRec) :
    update_route_stops stops upds = stops.map fun s => upds.foldl stepOne s := by
  induction upds generalizing stops with
  | nil => simp [update_route_stops]
  | cons u us ih =>
    have h1 : update_route_stops stops (u :: us) =
        update_route_stops (stepStopUpdate stops u) us := rfl
    have h2 : stepStopUpdate stops u = stops.map fun s => stepOne s u := rfl
    rw [h1, ih, h2, List.map_map]
    rfl

/-- Per-stop effect of the whole update list: the last submitted value for
the stop's id wins; stops never submitted are untouched. -/
theorem foldl_stepOne_eq (upds : List (EId × Int)) (s : RouteStopRec) :
    upds.foldl stepOne s =
      match lastSubmittedSeq upds s.id with
      | some v => { s with sequence := v }
      | none => s := by
  induction upds generalizing s with
  | nil => rfl
  | cons u us ih =>
    show List.foldl stepOne (stepOne s u) us = _
    by_cases hu : s.id = u.1
    · rw [ih]
      simp only [stepOne, if_pos hu, lastSubmittedSeq]
      cases hl : lastSubmittedSeq us s.id with
      | some v => simp [hl]
      | none => simp [hl, hu.symm]
    · rw [ih]
      simp only [stepOne, if_neg hu, lastSubmittedSeq]
      cases hl : lastSubmittedSeq us s.id with
      | some v => simp [hl]
      | none =>
        have hu2 : ¬u.1 = s.id := fun h => hu h.symm
        simp [hl, hu2]

/-- **C5** (amended).  `reorder_stops` (`update_route_stops`,
`app/api/routes.py` 832-854) sets each submitted stop's sequence to its
(last) submitted value and leaves every other stop unchanged; it performs
no resequencing, so the sequence values form a dense `1..N` permutation
only when the submitted values themselves do. -/
theorem C5_reorder_sets_submitted_values (stops : List RouteStopRec)
    (upds : List (EId × Int)) :
    update_route_stops stops upds = stops.map fun s =>
      match lastSubmittedSeq upds s.id with
      | some v => { s with sequence := v }
      | none => s := by
  rw [update_route_stops_map]
  exact List.map_congr_left fun s _ => foldl_stepOne_eq upds s

/-- Stops of a two-stop route, densely sequenced 1, 2. -/
def stopA : RouteStopRec :=
  { id := 100, route_id := 50, customer_id := 11, sequence := 1 }

/-- Second stop of the two-stop route. -/
def stopB : RouteStopRec :=
  { id := 101, route_id := 50, customer_id := 12, sequence := 2 }

/-- **C5** counterexample.  The claim states the sequence values are a
dense `1..N` permutation after *every* `reorder_stops` call, with
resequencing repairing inconsistent input.  Submitting the single pair
`(stop 100, sequence 5)` on the dense route `[1, 2]` leaves `[5, 2]` —
no resequencing happens and the invariant is broken. -/
theorem C5_counterexample :
    routeSequences (update_route_stops [stopA, stopB] [(100, 5)]) 50 = [5, 2]
    ∧ spec_dense_permutation
        (routeSequences (update_route_stops [stopA, stopB] [(100, 5)]) 50) =
      false
    ∧ spec_dense_permutation (routeSequences [stopA, stopB] 50) = true := by
  refine ⟨rfl, rfl, rfl⟩

/-! ## C6 — coordinate-less customers -/

/-- Every stop emitted by the TSP extraction loop comes from the
`customer_map`. -/
theorem tourWalk_stops_mem (distM : List (List ℚ)) (timeM : List (List Int))
    (cmap : Nat → Option Customer) (n : Nat) :
    ∀ (tr : List Nat) (i : EId), i ∈ (tourWalk distM timeM cmap n tr).1 →
      ∃ x c, cmap x = some c ∧ c.id = i := by
  intro tr
  induction tr with
  | nil => intro i hi; simp [tourWalk] at hi
  | cons x t ih =>
    cases t with
    | nil => intro i hi; simp [tourWalk] at hi
    | cons y rest =>
      intro i hi
      simp only [tourWalk] at hi
      by_cases hx : x ≠ 0 ∧ x ≠ n - 1
      · rw [if_pos hx] at hi
        cases hc : cmap x with
        | some c =>
          rw [hc] at hi
          rcases List.mem_append.mp hi with h1 | h2
          · have hieq : i = c.id := by simpa using h1
            exact ⟨x, c, hc, hieq.symm⟩
          · exact ih i h2
        | none =>
          rw [hc] at hi
          exact ih i (by simpa using hi)
      · rw [if_neg hx] at hi
        exact ih i (by simpa using hi)

/-- An entry of `customer_map` is one of the filtered customers. -/
theorem customerMap_mem (valid : List Customer) (k : Nat) (c : Customer)
    (h : customerMap valid k = some c) : c ∈ valid := by
  unfold customerMap at h
  split at h
  · exact List.get?_mem h
  · cases h

/-- A customer with no coordinates at all. -/
def customerNoCoords : Customer :=
  { id := 13, organization_id := 1, visit_duration := 20 }

/-- **C6** counterexample.  The claim states every coordinate-less customer
is excluded from the resulting stop sequences and surfaced in a `skipped`
list.  The one-customer shortcut of `generate_route_for_tech`
(`app/services/tech_routing.py` 59-69) runs *before* the coordinate filter:
a sole customer with no coordinates lands in `stop_sequence`; and no
result anywhere in the routing core carries a `skipped` list (the filters
at `optimization.py` 996-1003 and `tech_routing.py` 75-80 drop such
customers with only a log line). -/
theorem C6_counterexample :
    hasCoords customerNoCoords = false
    ∧ (generate_route_for_tech gmZero none techSameTech [customerNoCoords]
          "monday" 5 1).stop_sequence = [13] := by
  refine ⟨rfl, rfl⟩

/-- **C6** (amended).  Coordinate-less customers are excluded from
solver-produced stop sequences: the day optimizer filters them before
solving (`valid_customers`), and in the single-tech path (two or more
customers, solver success) every emitted stop id belongs to a customer
with coordinates.  But the exclusion is silent — no `skipped` list exists
in any result — and the one-customer shortcut and the no-solution fallback
keep coordinate-less customers in `stop_sequence`. -/
theorem C6_coordinate_exclusion
    (gm : List (ℚ × ℚ) → List (List ℚ) × List (List Int))
    (tr : List Nat) (tech : Tech) (cs : List Customer) (day : Day)
    (d : DateV) (org : EId) (h2 : 2 ≤ cs.length) :
    (∀ i ∈ (generate_route_for_tech gm (some tr) tech cs day d
        org).stop_sequence,
      ∃ c, c ∈ cs ∧ hasCoords c = true ∧ c.id = i)
    ∧ (∀ c, c ∈ valid_customers cs ↔ c ∈ cs ∧ hasCoords c = true) := by
  constructor
  · rcases cs with _ | ⟨a, _ | ⟨b, rest⟩⟩
    · simp at h2
    · simp at h2
    · intro i hi
      simp only [generate_route_for_tech] at hi
      rcases tourWalk_stops_mem _ _ _ _ tr i hi with ⟨x, c, hc, hid⟩
      have hval := customerMap_mem _ _ _ hc
      rcases List.mem_filter.mp hval with ⟨hmem, hcoords⟩
      exact ⟨c, hmem, hcoords, hid⟩
  · intro c
    simp [valid_customers, List.mem_filter]

/-- Witness for `C6_coordinate_exclusion` at a concrete input. -/
theorem C6_coordinate_exclusion_witness :
    2 ≤ ([customerSameTech, customerHard] : List Customer).length
    ∧ ((∀ i ∈ (generate_route_for_tech gmZero (some [0, 1, 2, 3]) techSameTech
          [customerSameTech, customerHard] "monday" 5 1).stop_sequence,
        ∃ c, c ∈ [customerSameTech, customerHard] ∧ hasCoords c = true ∧
          c.id = i)
      ∧ (∀ c, c ∈ valid_customers [customerSameTech, customerHard] ↔
          c ∈ [customerSameTech, customerHard] ∧ hasCoords c = true)) :=
  ⟨by decide,
    C6_coordinate_exclusion gmZero [0, 1, 2, 3] techSameTech
      [customerSameTech, customerHard] "monday" 5 1 (by decide)⟩

/-! ## C7 — seconds-to-minutes conversion -/

/-- **C7** counterexample.  The claim states every non-self time entry is
floored up to 1 minute.  The source (`app/services/routing.py` 164) maps
`int(d / 60)` over the payload with no floor: a 30-second pair converts to
0 minutes, where the claimed conversion gives 1. -/
theorem C7_counterexample :
    (osrm_get_distance_matrix [(37, -121), (38, -121)]
        (.reply 200 "Ok" [[0, 1000], [1000, 0]] [[0, 30], [30, 0]])).2 =
      [[0, 0], [0, 0]]
    ∧ spec_minutes_entry 30 false = 1
    ∧ ((0 : Int) ≠ 1) := by
  refine ⟨?_, ?_, by decide⟩
  · unfold osrm_get_distance_matrix
    norm_num [pyIntQ]
  · unfold spec_minutes_entry
    norm_num [pyIntQ]

/-- **C7** (amended).  On a successful backend reply the distances are
returned unchanged and every duration entry — self or not — is converted
seconds→minutes by plain truncation `int(d / 60)`; there is no 1-minute
floor, so non-self entries below 60 s become 0. -/
theorem C7_seconds_to_minutes (locations : List (ℚ × ℚ))
    (dists durs : List (List ℚ)) (hlen : ¬ 100 < locations.length) :
    osrm_get_distance_matrix locations (.reply 200 "Ok" dists durs) =
      (dists, durs.map (·.map fun d => pyIntQ (d / 60)))
    ∧ ∀ i j, idxZ (durs.map (·.map fun d => pyIntQ (d / 60))) i j =
        pyIntQ ((idxQ durs i j) / 60) := by
  constructor
  · unfold osrm_get_distance_matrix
    rw [if_neg hlen]
    simp
  · intro i j
    unfold idxZ idxQ
    simp only [List.get?_eq_getElem?, List.getElem?_map]
    cases hi : durs[i]? with
    | none => norm_num [pyIntQ, List.getElem?_nil]
    | some row =>
      simp only [Option.map_some', Option.getD_some, List.getElem?_map]
      cases hj : row[j]? with
      | none => norm_num [pyIntQ, List.getElem?_nil]
      | some d => simp

/-- Witness for `C7_seconds_to_minutes` at a concrete input. -/
theorem C7_seconds_to_minutes_witness :
    ¬ (100 < ([((37 : ℚ), (-121 : ℚ)), (38, -121)] : List (ℚ × ℚ)).length)
    ∧ (osrm_get_distance_matrix [(37, -121), (38, -121)]
          (.reply 200 "Ok" [[0, 1000], [1000, 0]] [[0, 30], [30, 0]]) =
        ([[0, 1000], [1000, 0]],
          ([[0, 30], [30, 0]] : List (List ℚ)).map
            (·.map fun d => pyIntQ (d / 60)))
      ∧ ∀ i j, idxZ ((([[0, 30], [30, 0]] : List (List ℚ))).map
            (·.map fun d => pyIntQ (d / 60))) i j =
          pyIntQ ((idxQ [[0, 30], [30, 0]] i j) / 60)) :=
  ⟨by decide,
    C7_seconds_to_minutes [(37, -121), (38, -121)]
      [[0, 1000], [1000, 0]] [[0, 30], [30, 0]] (by decide)⟩

/-! ## C9 — cross-day combination selection -/

/-- Behaviour of the strict running-minimum fold of
`_optimize_with_day_reassignment`: either no candidate beats the initial
value (and the initial best survives), or the result is a candidate
achieving the minimum, strictly below the initial value. -/
theorem foldl_strict_min {α : Type} (f : α → ℚ) (l : List α) (b0 : α)
    (v0 : ℚ) :
    (l.foldl (fun p nd => if f nd < p.2 then (nd, f nd) else p) (b0, v0) =
        (b0, v0)
      ∧ ∀ x ∈ l, v0 ≤ f x)
    ∨ ((l.foldl (fun p nd => if f nd < p.2 then (nd, f nd) else p)
          (b0, v0)).1 ∈ l
      ∧ (l.foldl (fun p nd => if f nd < p.2 then (nd, f nd) else p)
          (b0, v0)).2 =
        f (l.foldl (fun p nd => if f nd < p.2 then (nd, f nd) else p)
          (b0, v0)).1
      ∧ (l.foldl (fun p nd => if f nd < p.2 then (nd, f nd) else p)
          (b0, v0)).2 < v0
      ∧ ∀ x ∈ l,
          (l.foldl (fun p nd => if f nd < p.2 then (nd, f nd) else p)
            (b0, v0)).2 ≤ f x) := by
  induction l generalizing b0 v0 with
  | nil => left; exact ⟨rfl, by simp⟩
  | cons x xs ih =>
    simp only [List.foldl_cons]
    by_cases hx : f x < v0
    · rw [if_pos hx]
      right
      rcases ih x (f x) with ⟨heq, hall⟩ | ⟨hmem, hval, hlt, hall⟩
      · rw [heq]
        refine ⟨List.mem_cons_self _ _, rfl, hx, ?_⟩
        intro z hz
        rcases List.mem_cons.mp hz with rfl | hz
        · exact le_refl _
        · exact hall z hz
      · refine ⟨List.mem_cons_of_mem _ hmem, hval, lt_trans hlt hx, ?_⟩
        intro z hz
        rcases List.mem_cons.mp hz with rfl | hz
        · exact le_of_lt hlt
        · exact hall z hz
    · rw [if_neg hx]
      rcases ih b0 v0 with ⟨heq, hall⟩ | ⟨hmem, hval, hlt, hall⟩
      · left
        refine ⟨heq, ?_⟩
        intro z hz
        rcases List.mem_cons.mp hz with rfl | hz
        · exact le_of_not_lt hx
        · exact hall z hz
      · right
        refine ⟨List.mem_cons_of_mem _ hmem, hval, hlt, ?_⟩
        intro z hz
        rcases List.mem_cons.mp hz with rfl | hz
        · exact le_trans (le_of_lt hlt) (le_of_not_lt hx)
        · exact hall z hz

/-- **C9** (amended).  The multi-day branch enumerates all
`C(days, days_per_week)` combinations, but the baseline of the strict
running minimum is the variance with the customer *removed from all days*
(`_calculate_workload_variance(day_workloads, current_days, [])`), not the
current pattern's post-move variance.  Hence: either no combination is
strictly below that removed-baseline and the current pattern is kept (even
when another combination has strictly lower post-move variance than the
current pattern), or the result is a combination achieving the minimum
over all combinations, strictly below the removed-baseline. -/
theorem C9_day_combination_selection (days : List Day) (w : List (Day × Int))
    (current : List Day) (freq : Nat) :
    (choose_best_days days w current freq = current
      ∧ ∀ nd ∈ combinations days freq,
          calculate_workload_variance w current [] ≤
            calculate_workload_variance w current nd)
    ∨ (choose_best_days days w current freq ∈ combinations days freq
      ∧ calculate_workload_variance w current
          (choose_best_days days w current freq) <
        calculate_workload_variance w current []
      ∧ ∀ nd ∈ combinations days freq,
          calculate_workload_variance w current
            (choose_best_days days w current freq) ≤
          calculate_workload_variance w current nd) := by
  simp only [choose_best_days]
  rcases foldl_strict_min (calculate_workload_variance w current)
      (combinations days freq) current
      (calculate_workload_variance w current []) with
    ⟨heq, hall⟩ | ⟨hmem, hval, hlt, hall⟩
  · left
    rw [heq]
    exact ⟨rfl, hall⟩
  · right
    refine ⟨hmem, ?_, ?_⟩
    · rw [← hval]; exact hlt
    · intro nd hnd
      rw [← hval]; exact hall nd hnd

/-- The per-day workload counts of the counterexample: the unlocked
multi-day customer currently serves monday and saturday. -/
def workloadsC9 : List (Day × Int) :=
  [("monday", 4), ("tuesday", 3), ("wednesday", 3), ("thursday", 3),
   ("friday", 3), ("saturday", 5)]

/-- Current two-day pattern of the counterexample customer. -/
def currentDaysC9 : List Day := ["monday", "saturday"]

set_option maxHeartbeats 1000000 in
/-- **C9** counterexample.  The claim states the algorithm assigns the
combination minimizing the post-move variance, keeping the current pattern
only on ties.  With counts (4,3,3,3,3,5) and current pattern
monday/saturday, moving to tuesday/wednesday has post-move variance 1/4
while keeping the current pattern has 7/12 — yet `choose_best_days` keeps
monday/saturday, because every combination compares against the
customer-removed baseline 5/36, which is below them all. -/
theorem C9_counterexample :
    choose_best_days week_days workloadsC9 currentDaysC9 2 = currentDaysC9
    ∧ calculate_workload_variance workloadsC9 currentDaysC9
        ["tuesday", "wednesday"] <
      calculate_workload_variance workloadsC9 currentDaysC9 currentDaysC9
    ∧ ["tuesday", "wednesday"] ∈ combinations week_days 2 := by
  refine ⟨?_, ?_, by decide⟩
  · have hc : combinations week_days 2 =
        [["monday", "tuesday"], ["monday", "wednesday"],
         ["monday", "thursday"], ["monday", "friday"],
         ["monday", "saturday"], ["tuesday", "wednesday"],
         ["tuesday", "thursday"], ["tuesday", "friday"],
         ["tuesday", "saturday"], ["wednesday", "thursday"],
         ["wednesday", "friday"], ["wednesday", "saturday"],
         ["thursday", "friday"], ["thursday", "saturday"],
         ["friday", "saturday"]] := by decide
    have H : ∀ nd ∈ combinations week_days 2,
        calculate_workload_variance workloadsC9 currentDaysC9 [] ≤
          calculate_workload_variance workloadsC9 currentDaysC9 nd := by
      intro nd hnd
      rw [hc] at hnd
      fin_cases hnd <;>
        (simp [calculate_workload_variance, wl_adjust, variance_of,
          workloadsC9, currentDaysC9, List.count_cons, List.count_nil] <;>
            norm_num)
    simp only [choose_best_days]
    rcases foldl_strict_min
        (calculate_workload_variance workloadsC9 currentDaysC9)
        (combinations week_days 2) currentDaysC9
        (calculate_workload_variance workloadsC9 currentDaysC9 []) with
      ⟨heq, -⟩ | ⟨hmem, hval, hlt, -⟩
    · rw [heq]
    · exfalso
      have hge : calculate_workload_variance workloadsC9 currentDaysC9 [] ≤
          (List.foldl (fun p nd =>
            if calculate_workload_variance workloadsC9 currentDaysC9 nd <
                p.2 then
              (nd, calculate_workload_variance workloadsC9 currentDaysC9 nd)
            else p)
            (currentDaysC9,
              calculate_workload_variance workloadsC9 currentDaysC9 [])
            (combinations week_days 2)).2 := by
        rw [hval]
        exact H _ hmem
      exact absurd hlt (not_lt.mpr hge)
  · simp [workloadsC9, currentDaysC9, calculate_workload_variance,
      wl_adjust, variance_of, List.count_cons, List.count_nil] <;> norm_num

/-- Witness instantiating `C9_day_combination_selection` at the
counterexample input. -/
theorem C9_day_combination_selection_witness :
    (choose_best_days week_days workloadsC9 currentDaysC9 2 = currentDaysC9
      ∧ ∀ nd ∈ combinations week_days 2,
          calculate_workload_variance workloadsC9 currentDaysC9 [] ≤
            calculate_workload_variance workloadsC9 currentDaysC9 nd)
    ∨ (choose_best_days week_days workloadsC9 currentDaysC9 2 ∈
        combinations week_days 2
      ∧ calculate_workload_variance workloadsC9 currentDaysC9
          (choose_best_days week_days workloadsC9 currentDaysC9 2) <
        calculate_workload_variance workloadsC9 currentDaysC9 []
      ∧ ∀ nd ∈ combinations week_days 2,
          calculate_workload_variance workloadsC9 currentDaysC9
            (choose_best_days week_days workloadsC9 currentDaysC9 2) ≤
          calculate_workload_variance workloadsC9 currentDaysC9 nd) :=
  C9_day_combination_selection week_days workloadsC9 currentDaysC9 2

/-! ## C10 — stop expansion in `get_tech_routes_for_day` -/

/-- The customer ids carried by the expanded stops are exactly the
resolvable ids of the stored sequence, in order. -/
theorem build_stops_ids (col : List Customer) (seq : List EId) :
    (build_stops col seq).map (·.customer_id) =
      seq.filter fun cid => (dictLastCustomer col cid).isSome := by
  induction seq with
  | nil => rfl
  | cons cid t ih =>
    cases hc : dictLastCustomer col cid with
    | none =>
      simp only [build_stops, List.filterMap_cons, hc, List.filter_cons,
        Option.isSome_none, Bool.false_eq_true, if_false]
      exact ih
    | some c =>
      simp only [build_stops, List.filterMap_cons, hc, Option.map_some',
        List.filter_cons, Option.isSome_some, if_true, List.map_cons]
      exact congrArg (List.cons cid) ih

/-- A persisted route whose stored sequence carries a stale id (99) next to
a live customer id (11). -/
def routeWithGhost : TechRouteRec :=
  { organization_id := 1, tech_id := 30, service_day := "monday",
    route_date := 5, stop_sequence := [11, 99], total_distance := 0,
    total_duration := 15 }

/-- **C10** (confirmed).  In `get_tech_routes_for_day` each id of a stored
`stop_sequence` is expanded into the `stops` list exactly when it resolves
in the lookup table built from the tenant's active customers; unresolvable
ids stay in the returned `stop_sequence` but are silently omitted from
`stops`, so `stops` can be shorter than `stop_sequence` (concretely: the
stored sequence `[11, 99]` yields one expanded stop). -/
theorem C10_stop_expansion (customers : List Customer) (org : EId)
    (tech : Tech) (tr : TechRouteRec) :
    (build_day_route (customers_by_id customers org) tech tr).stop_sequence =
      tr.stop_sequence
    ∧ ((build_day_route (customers_by_id customers org) tech tr).stops.map
        (·.customer_id)) =
      tr.stop_sequence.filter (fun cid =>
        (dictLastCustomer (customers_by_id customers org) cid).isSome)
    ∧ (build_day_route (customers_by_id customers org) tech
        tr).stops.length ≤ tr.stop_sequence.length
    ∧ (∀ cid, (dictLastCustomer (customers_by_id customers org)
          cid).isSome = true ↔
        ∃ c, c ∈ customers ∧ c.organization_id = org ∧ c.is_active = true ∧
          c.id = cid)
    ∧ (build_day_route (customers_by_id dbSameTech.customers 1) techSameTech
        routeWithGhost).stops.length = 1
    ∧ routeWithGhost.stop_sequence.length = 2 := by
  refine ⟨rfl, build_stops_ids _ _, ?_, ?_, rfl, rfl⟩
  · exact List.length_filterMap_le _ _
  · intro cid
    unfold dictLastCustomer customers_by_id
    rw [List.getLast?_isSome]
    constructor
    · intro hne
      rcases List.exists_mem_of_ne_nil _ hne with ⟨c, hcmem⟩
      rcases List.mem_filter.mp hcmem with ⟨hcmem2, hid⟩
      rcases List.mem_filter.mp hcmem2 with ⟨hmem, horg⟩
      simp only [Bool.and_eq_true, beq_iff_eq] at horg hid
      exact ⟨c, hmem, horg.1, horg.2, hid⟩
    · rintro ⟨c, hmem, horg, hact, hid⟩
      intro hnil
      have : c ∈ ((customers.filter fun c =>
          c.organization_id == org && c.is_active).filter
            fun c => c.id == cid) := by
        refine List.mem_filter.mpr ⟨List.mem_filter.mpr ⟨hmem, ?_⟩, ?_⟩
        · simp [beq_iff_eq, horg, hact]
        · simp [beq_iff_eq, hid]
      rw [hnil] at this
      cases this

/-! ## C8 — matrix fallback -/

/-- Truncation of zero is zero. -/
theorem pyIntR_zero : pyIntR 0 = 0 := by
  unfold pyIntR
  rw [if_pos le_rfl]
  exact Int.floor_zero

/-- The Haversine `a` term vanishes on identical points. -/
theorem haversine_a_self (lat lon : ℝ) : haversine_a lat lon lat lon = 0 := by
  unfold haversine_a radians
  simp [sub_self]

/-- The Haversine distance of a point to itself is zero. -/
theorem haversine_distance_self (lat lon : ℝ) :
    haversine_distance lat lon lat lon = 0 := by
  unfold haversine_distance
  rw [haversine_a_self]
  have h1 : pyAtan2 (Real.sqrt 0) (Real.sqrt (1 - 0)) = 0 := by
    rw [Real.sqrt_zero, show (1 : ℝ) - 0 = 1 by ring, Real.sqrt_one]
    unfold pyAtan2
    rw [if_pos (by norm_num : (0 : ℝ) < 1)]
    simp [Real.arctan_zero]
  rw [h1]
  ring

/-- The Haversine `a` term is symmetric in its two points. -/
theorem haversine_a_symm (lat1 lon1 lat2 lon2 : ℝ) :
    haversine_a lat2 lon2 lat1 lon1 = haversine_a lat1 lon1 lat2 lon2 := by
  unfold haversine_a radians
  have hs : ∀ x y : ℝ,
      Real.sin ((x - y) * Real.pi / 180 / 2) ^ 2 =
        Real.sin ((y - x) * Real.pi / 180 / 2) ^ 2 := by
    intro x y
    have hneg : (x - y) * Real.pi / 180 / 2 =
        -((y - x) * Real.pi / 180 / 2) := by ring
    rw [hneg, Real.sin_neg, neg_sq]
  rw [hs lat1 lat2, hs lon1 lon2]
  ring

/-- The Haversine distance is symmetric. -/
theorem haversine_distance_symm (lat1 lon1 lat2 lon2 : ℝ) :
    haversine_distance lat2 lon2 lat1 lon1 =
      haversine_distance lat1 lon1 lat2 lon2 := by
  unfold haversine_distance
  rw [haversine_a_symm]

/-- Entry-level symmetry of the fallback matrices. -/
theorem fallback_entries_symm (locations : List (ℚ × ℚ)) (i j : Nat) :
    fallbackDistEntry locations i j = fallbackDistEntry locations j i
    ∧ fallbackTimeEntry locations i j = fallbackTimeEntry locations j i := by
  unfold fallbackDistEntry fallbackTimeEntry
  by_cases hij : i = j
  · subst hij
    simp
  · rw [if_neg hij, if_neg (Ne.symm hij), if_neg hij, if_neg (Ne.symm hij)]
    constructor
    · rw [haversine_distance_symm]
    · rw [haversine_distance_symm]

/-- Indexing the fallback matrices inside their range yields the entry
functions. -/
theorem create_fallback_idx (locations : List (ℚ × ℚ)) (i j : Nat)
    (hi : i < locations.length) (hj : j < locations.length) :
    idxQ (create_fallback_matrices locations).1 i j =
      ((fallbackDistEntry locations i j : Int) : ℚ)
    ∧ idxZ (create_fallback_matrices locations).2 i j =
      fallbackTimeEntry locations i j := by
  unfold create_fallback_matrices idxQ idxZ
  constructor
  · rw [List.get?_map, List.get?_range hi]
    simp only [Option.map_some', Option.getD_some]
    rw [List.get?_map, List.get?_range hj]
    simp
  · rw [List.get?_map, List.get?_range hi]
    simp only [Option.map_some', Option.getD_some]
    rw [List.get?_map, List.get?_range hj]
    simp

/-- **C8** (amended).  On any backend failure (HTTP non-200, error payload
code, timeout, any other raised error) or an oversized point set, the
provider does not raise: it returns exactly the Haversine fallback
matrices, whose diagonal is zero and which are symmetric — so the solve
proceeds on straight-line data.  But no `matrix_source` tag exists: the
return value is the bare matrix pair (the fallback is only logged), so the
response does not tell callers the data is not real driving data. -/
theorem C8_failure_uses_fallback (locations : List (ℚ × ℚ))
    (outcome : BackendOutcome)
    (h : backendFails outcome = true ∨ 100 < locations.length) :
    osrm_get_distance_matrix locations outcome =
      create_fallback_matrices locations
    ∧ (∀ i, i < locations.length →
        idxQ (create_fallback_matrices locations).1 i i = 0 ∧
        idxZ (create_fallback_matrices locations).2 i i = 0)
    ∧ (∀ i j, i < locations.length → j < locations.length →
        idxQ (create_fallback_matrices locations).1 i j =
          idxQ (create_fallback_matrices locations).1 j i ∧
        idxZ (create_fallback_matrices locations).2 i j =
          idxZ (create_fallback_matrices locations).2 j i) := by
  refine ⟨?_, ?_, ?_⟩
  · unfold osrm_get_distance_matrix
    by_cases hl : 100 < locations.length
    · rw [if_pos hl]
    · rw [if_neg hl]
      rcases h with hfail | hlen
      · cases outcome with
        | reply status code dists durs =>
          show (if status ≠ 200 then create_fallback_matrices locations
            else if code ≠ "Ok" then create_fallback_matrices locations
            else (dists,
              durs.map (·.map fun d => pyIntQ (d / 60)))) =
            create_fallback_matrices locations
          simp only [backendFails, Bool.or_eq_true, bne_iff_ne] at hfail
          rcases hfail with hstat | hcode
          · rw [if_pos hstat]
          · by_cases hstat : status ≠ 200
            · rw [if_pos hstat]
            · rw [if_neg hstat, if_pos hcode]
        | timeout => rfl
        | connectionError => rfl
      · exact absurd hlen hl
  · intro i hi
    rcases create_fallback_idx locations i i hi hi with ⟨h1, h2⟩
    rw [h1, h2]
    unfold fallbackDistEntry fallbackTimeEntry
    rw [if_pos rfl, if_pos rfl]
    simp
  · intro i j hi hj
    rcases create_fallback_idx locations i j hi hj with ⟨h1, h2⟩
    rcases create_fallback_idx locations j i hj hi with ⟨h3, h4⟩
    rcases fallback_entries_symm locations i j with ⟨h5, h6⟩
    rw [h1, h2, h3, h4, h5, h6]
    exact ⟨rfl, rfl⟩

/-- Witness for `C8_failure_uses_fallback` at a concrete input. -/
theorem C8_failure_uses_fallback_witness :
    (backendFails BackendOutcome.timeout = true ∨
      100 < ([((37 : ℚ), (-121 : ℚ)), (38, -121)] : List (ℚ × ℚ)).length)
    ∧ (osrm_get_distance_matrix [(37, -121), (38, -121)]
          BackendOutcome.timeout =
        create_fallback_matrices [(37, -121), (38, -121)]
      ∧ (∀ i, i < ([((37 : ℚ), (-121 : ℚ)), (38, -121)] :
            List (ℚ × ℚ)).length →
          idxQ (create_fallback_matrices [(37, -121), (38, -121)]).1 i i = 0 ∧
          idxZ (create_fallback_matrices [(37, -121), (38, -121)]).2 i i = 0)
      ∧ (∀ i j, i < ([((37 : ℚ), (-121 : ℚ)), (38, -121)] :
            List (ℚ × ℚ)).length →
          j < ([((37 : ℚ), (-121 : ℚ)), (38, -121)] :
            List (ℚ × ℚ)).length →
          idxQ (create_fallback_matrices [(37, -121), (38, -121)]).1 i j =
            idxQ (create_fallback_matrices [(37, -121), (38, -121)]).1 j i ∧
          idxZ (create_fallback_matrices [(37, -121), (38, -121)]).2 i j =
            idxZ (create_fallback_matrices [(37, -121), (38, -121)]).2 j i)) :=
  ⟨Or.inl rfl,
    C8_failure_uses_fallback [(37, -121), (38, -121)] BackendOutcome.timeout
      (Or.inl rfl)⟩

/-- The fallback matrices of a immediately-repeated point are all zeros. -/
theorem create_fallback_matrices_pair_self (p : ℚ × ℚ) :
    create_fallback_matrices [p, p] = ([[0, 0], [0, 0]], [[0, 0], [0, 0]]) := by
  have hself : haversine_distance (p.1 : ℝ) (p.2 : ℝ) (p.1 : ℝ) (p.2 : ℝ) = 0 :=
    haversine_distance_self _ _
  unfold create_fallback_matrices fallbackDistEntry fallbackTimeEntry
  rw [show List.range ([p, p] : List (ℚ × ℚ)).length = [0, 1] from rfl]
  norm_num [hself, pyIntR_zero]

/-- **C8** counterexample.  The claim states the response is tagged
`matrix_source=fallback` so callers know the data is not real.  The
provider's return value is a bare matrix pair with no tag anywhere: a
genuine HTTP-200 success and an HTTP-503 fallback can produce *identical*
responses, so no caller can tell them apart.  (Both calls below return
`([[0,0],[0,0]], [[0,0],[0,0]])` for the degenerate two-point set.) -/
theorem C8_counterexample :
    osrm_get_distance_matrix [((37 : ℚ), (-121 : ℚ)), (37, -121)]
        (.reply 200 "Ok" [[0, 0], [0, 0]] [[0, 0], [0, 0]]) =
      osrm_get_distance_matrix [((37 : ℚ), (-121 : ℚ)), (37, -121)]
        (.reply 503 "Ok" [[9, 9], [9, 9]] [[9, 9], [9, 9]]) := by
  have h1 : osrm_get_distance_matrix [((37 : ℚ), (-121 : ℚ)), (37, -121)]
      (.reply 200 "Ok" [[0, 0], [0, 0]] [[0, 0], [0, 0]]) =
      ([[0, 0], [0, 0]], [[0, 0], [0, 0]]) := by
    show (if 100 < ([((37 : ℚ), (-121 : ℚ)), (37, -121)] :
          List (ℚ × ℚ)).length then
        create_fallback_matrices [(37, -121), (37, -121)]
      else if (200 : Nat) ≠ 200 then
        create_fallback_matrices [(37, -121), (37, -121)]
      else if ("Ok" : String) ≠ "Ok" then
        create_fallback_matrices [(37, -121), (37, -121)]
      else (([[0, 0], [0, 0]] : List (List ℚ)),
        ([[0, 0], [0, 0]] : List (List ℚ)).map
          (·.map fun d => pyIntQ (d / 60)))) =
      ([[0, 0], [0, 0]], [[0, 0], [0, 0]])
    rw [if_neg (by norm_num), if_neg (by norm_num), if_neg (by norm_num)]
    norm_num [pyIntQ]
  have h2 : osrm_get_distance_matrix [((37 : ℚ), (-121 : ℚ)), (37, -121)]
      (.reply 503 "Ok" [[9, 9], [9, 9]] [[9, 9], [9, 9]]) =
      ([[0, 0], [0, 0]], [[0, 0], [0, 0]]) := by
    show (if 100 < ([((37 : ℚ), (-121 : ℚ)), (37, -121)] :
          List (ℚ × ℚ)).length then
        create_fallback_matrices [(37, -121), (37, -121)]
      else if (503 : Nat) ≠ 200 then
        create_fallback_matrices [(37, -121), (37, -121)]
      else if ("Ok" : String) ≠ "Ok" then
        create_fallback_matrices [(37, -121), (37, -121)]
      else (([[9, 9], [9, 9]] : List (List ℚ)),
        ([[9, 9], [9, 9]] : List (List ℚ)).map
          (·.map fun d => pyIntQ (d / 60)))) =
      ([[0, 0], [0, 0]], [[0, 0], [0, 0]])
    rw [if_neg (by norm_num), if_pos (by norm_num)]
    exact create_fallback_matrices_pair_self (37, -121)
  rw [h1, h2]

end QuantumPools
